import Mathlib

/-!
Shallow embedding of the scene-partitioning and sampler-argument assembly code
of `experiments/object_manip_thor_ppo.py` (class
`ObjectManipThorPPOExperimentConfig`) and `experiments/object_nav_thor_a2c.py`
(class `ObjectNavThorPPOExperimentConfig`), together with proofs about it.

Modelling conventions:
* Python ints are modelled as `ℤ` (seeds, device ids) or as `ℕ` where the code
  only ever passes non-negative values (list lengths, process counts/indices).
* Fallible Python code is modelled with `Except PyError`.
* Python dicts with string keys are insertion-ordered association lists.
* The single piece of shared mutable state the methods touch (the class-level
  `ENV_ARGS` dict, mutated by the A2C file through the aliased
  `res["env_args"]`) is threaded explicitly through a `ClassState` value.
* `np.round(np.linspace(0, n, p + 1))` is modelled in exact integer arithmetic:
  the i-th sample is the rational i*n/p and `np.round` rounds half to even.
  Likewise `int(ceil(a / b))` is modelled as the exact ceiling. The float64
  computations of numpy and `math.ceil` agree with the exact model for all
  realistically sized inputs; the int32 cast in `_partition_inds` is assumed
  not to overflow.
* The two warnings printed by `_get_sampler_args_for_scene_split` are modelled
  as values collected in a list instead of writes to stdout.
-/

/-- Python runtime errors the embedded code can raise.  `configurationError` is
included because the specification names a `ConfigurationError`; the embedded
code itself never raises it. -/
inductive PyError where
  | zeroDivisionError
  | indexError
  | typeError
  | valueError
  | configurationError
deriving DecidableEq

/-- A value stored in an `env_args` dictionary: a Python int, str, or None. -/
inductive EnvVal where
  | int (n : ℤ)
  | str (s : String)
  | null
deriving DecidableEq

/-- A Python dict with string keys, as an insertion-ordered association list. -/
abbrev EnvArgs := List (String × EnvVal)

/-- Python dict item assignment `d[k] = v`: replace the value of an existing
key in place, otherwise append the new key at the end. -/
def dictUpdate : EnvArgs → String → EnvVal → EnvArgs
  | [], k, v => [(k, v)]
  | p :: t, k, v => if p.1 = k then (k, v) :: t else p :: dictUpdate t k v

/-- Python dict lookup (first, hence unique, occurrence of the key). -/
def dictGet : EnvArgs → String → Option EnvVal
  | [], _ => none
  | p :: t, k => if p.1 = k then some p.2 else dictGet t k

/-- Python `dst.update(src)`: item-assign each entry of `src` in order. -/
def dictUpdateAll (dst src : EnvArgs) : EnvArgs :=
  src.foldl (fun d p => dictUpdate d p.1 p.2) dst

/-- Python `a % b` on non-negative ints, raising ZeroDivisionError on `b = 0`. -/
def pyMod (a b : ℕ) : Except PyError ℕ :=
  if b = 0 then .error .zeroDivisionError else .ok (a % b)

/-- Python list (or 1-d numpy array) indexing at a non-negative index,
raising IndexError out of range. -/
def pyIndex {α : Type} (l : List α) (i : ℕ) : Except PyError α :=
  match l[i]? with
  | some x => .ok x
  | none => .error .indexError

/-- Exact model of Python `int(ceil(a / b))` for non-negative ints `a`, `b`
with `b > 0` at every call site (float true division idealized as exact). -/
def pyCeilDiv (a b : ℕ) : ℕ := (a + b - 1) / b

/-- Python `l * n` (list repetition). -/
def listRepeat {α : Type} (l : List α) : ℕ → List α
  | 0 => []
  | n + 1 => l ++ listRepeat l n

/-- Round the fraction `a / b` to the nearest integer, ties to the even
neighbour: the rounding mode of `np.round`.  Every call site has `b > 0`. -/
def roundHalfToEven (a b : ℕ) : ℕ :=
  let q := a / b
  let r := a % b
  if 2 * r < b then q
  else if b < 2 * r then q + 1
  else if q % 2 = 0 then q else q + 1

/-- The i-th boundary `round(i * n / num_parts)` produced by
`_partition_inds n num_parts` (the i-th sample of
`np.linspace(0, n, num_parts + 1)`, rounded half to even). -/
def boundary (n num_parts i : ℕ) : ℕ := roundHalfToEven (i * n) num_parts

/-- `_partition_inds(n, num_parts)` of both experiment classes:
`np.round(np.linspace(0, n, num_parts + 1, endpoint=True)).astype(np.int32)`,
modelled in exact arithmetic. -/
def _partition_inds (n num_parts : ℕ) : List ℕ :=
  (List.range (num_parts + 1)).map (boundary n num_parts)

/-- The two non-fatal warnings `_get_sampler_args_for_scene_split` can print.
`oversampledScenes` is the print in the `total_processes > len(scenes)` branch
(fires when `total_processes % len(scenes) != 0`); `unevenPartition` is the
print in the other branch (fires when `len(scenes) % total_processes != 0`). -/
inductive SamplingWarning where
  | oversampledScenes
  | unevenPartition
deriving DecidableEq

/-- The oversampling normalization of the `total_processes > len(scenes)`
branch: `scenes = scenes * int(ceil(total_processes / len(scenes)))` followed
by `scenes = scenes[: total_processes * (len(scenes) // total_processes)]`. -/
def oversampleScenes (scenes : List String) (total_processes : ℕ) : List String :=
  let s1 := listRepeat scenes (pyCeilDiv total_processes scenes.length)
  s1.take (total_processes * (s1.length / total_processes))

/-- The normalization prefix of `_get_sampler_args_for_scene_split`: branch on
`total_processes > len(scenes)`, check the modulus (this is where an empty
scene list or a zero process count raises ZeroDivisionError), collect the
warning, and oversample in the first branch. -/
def effectiveScenes (scenes : List String) (total_processes : ℕ) :
    Except PyError (List String × List SamplingWarning) :=
  if scenes.length < total_processes then
    match pyMod total_processes scenes.length with
    | .error e => .error e
    | .ok r =>
      .ok (oversampleScenes scenes total_processes,
        if r ≠ 0 then [.oversampledScenes] else [])
  else
    match pyMod scenes.length total_processes with
    | .error e => .error e
    | .ok r => .ok (scenes, if r ≠ 0 then [.unevenPartition] else [])

/-- Pure view of the effective scene list computed by `effectiveScenes` on the
non-error paths. -/
def effList (scenes : List String) (total_processes : ℕ) : List String :=
  if scenes.length < total_processes then oversampleScenes scenes total_processes
  else scenes

/-- Pure view of the warnings printed by `effectiveScenes` on the non-error
paths. -/
def splitWarnings (scenes : List String) (total_processes : ℕ) :
    List SamplingWarning :=
  if scenes.length < total_processes then
    if total_processes % scenes.length ≠ 0 then [.oversampledScenes] else []
  else
    if scenes.length % total_processes ≠ 0 then [.unevenPartition] else []

/-- The scene slice `scenes[inds[process_ind] : inds[process_ind + 1]]` that
worker `process_ind` receives from the normalized scene list. -/
def assignedScenes (scenes : List String) (total_processes process_ind : ℕ) :
    List String :=
  let e := effList scenes total_processes
  let a := boundary e.length total_processes process_ind
  let b := boundary e.length total_processes (process_ind + 1)
  (e.drop a).take (b - a)

/-- The dictionary returned by `_get_sampler_args_for_scene_split`.  The
`sensors` and `action_space` entries — opaque external collaborator objects —
are omitted from the model. -/
structure SplitArgs where
  scenes : List String
  object_types : List String
  env_args : EnvArgs
  max_steps : ℕ
  seed : Option ℤ
  deterministic_cudnn : Bool
deriving DecidableEq

/-- `_get_sampler_args_for_scene_split`, identical in both experiment files up
to the class attributes `OT = OBJECT_TYPES`, `EA = self.ENV_ARGS` (the current
class-level dict, to which the returned `env_args` entry is an alias) and
`MS = MAX_STEPS`.  Evaluation order follows the source: normalization first,
then the two `inds` lookups of the `scenes` slice, then the `seeds` access. -/
def _get_sampler_args_for_scene_split (OT : List String) (EA : EnvArgs) (MS : ℕ)
    (scenes : List String) (process_ind total_processes : ℕ)
    (seeds : Option (List ℤ)) (deterministic_cudnn : Bool) :
    Except PyError (SplitArgs × List SamplingWarning) :=
  match effectiveScenes scenes total_processes with
  | .error e => .error e
  | .ok (eff, ws) =>
    let inds := _partition_inds eff.length total_processes
    match pyIndex inds process_ind with
    | .error e => .error e
    | .ok a =>
      match pyIndex inds (process_ind + 1) with
      | .error e => .error e
      | .ok b =>
        let sliced := (eff.drop a).take (b - a)
        match seeds with
        | none => .ok (⟨sliced, OT, EA, MS, none, deterministic_cudnn⟩, ws)
        | some l =>
          match pyIndex l process_ind with
          | .error e => .error e
          | .ok s => .ok (⟨sliced, OT, EA, MS, some s, deterministic_cudnn⟩, ws)

/-- The class-level state the sampler-argument methods read (and, in the A2C
file, write through the aliased `env_args`): the `ENV_ARGS` template dict and
the three scene lists. -/
structure ClassState where
  ENV_ARGS : EnvArgs
  TRAIN_SCENES : List String
  VALID_SCENES : List String
  TEST_SCENES : List String
deriving DecidableEq

/-- The dictionary returned by `train/valid/test_task_sampler_args`.
`max_tasks := none` models the key being absent (train). -/
structure TaskArgs where
  scenes : List String
  object_types : List String
  env_args : EnvArgs
  max_steps : ℕ
  seed : Option ℤ
  deterministic_cudnn : Bool
  scene_period : EnvVal
  max_tasks : Option ℕ
deriving DecidableEq

/-- The display string `"0.%d" % d`. -/
def fmtDisplay (d : ℤ) : String := "0." ++ toString d

/-- The `x_display` value of the PPO file:
`("0.%d" % devices[process_ind % len(devices)]) if len(devices) > 0 else None`. -/
def ppoXDisplay (process_ind : ℕ) (ds : List ℤ) : EnvVal :=
  if h : 0 < ds.length then
    .str (fmtDisplay (ds.get ⟨process_ind % ds.length, Nat.mod_lt process_ind h⟩))
  else .null

/-- The `x_display` value of the A2C file:
`"0.%d" % devices[0] if len(devices) > 0 else None`. -/
def a2cXDisplay (ds : List ℤ) : EnvVal :=
  if h : 0 < ds.length then .str (fmtDisplay (ds.get ⟨0, h⟩)) else .null

namespace ObjectManipThorPPOExperimentConfig

def OBJECT_TYPES : List String := ["Bowl"]

def ENV_ARGS : EnvArgs :=
  [("player_screen_height", .int 224), ("player_screen_width", .int 224),
   ("quality", .str "Very Low")]

def MAX_STEPS : ℕ := 128

def VALID_SAMPLES_IN_SCENE : ℕ := 5

def TEST_SAMPLES_IN_SCENE : ℕ := 2

/-- The class attributes as the initial `ClassState`. -/
def defaultState : ClassState :=
  ⟨ENV_ARGS, ["FloorPlan1_physics"], ["FloorPlan1_physics"],
   ["FloorPlan1_physics"]⟩

/-- `train_task_sampler_args` of the PPO file: split `TRAIN_SCENES`, then set
`scene_period = "manual"`, rebind `res["env_args"]` to a fresh dict holding a
copy of `ENV_ARGS`, and set its `x_display`.  `len(devices)` is evaluated
unconditionally, so `devices = None` raises TypeError.  The class state is
returned unchanged. -/
def train_task_sampler_args (st : ClassState) (process_ind total_processes : ℕ)
    (devices : Option (List ℤ)) (seeds : Option (List ℤ))
    (deterministic_cudnn : Bool) :
    Except PyError (TaskArgs × ClassState × List SamplingWarning) :=
  match _get_sampler_args_for_scene_split OBJECT_TYPES st.ENV_ARGS MAX_STEPS
      st.TRAIN_SCENES process_ind total_processes seeds deterministic_cudnn with
  | .error e => .error e
  | .ok (r, ws) =>
    let e0 := dictUpdateAll [] st.ENV_ARGS
    match devices with
    | none => .error .typeError
    | some ds =>
      .ok ({ scenes := r.scenes, object_types := r.object_types,
             env_args := dictUpdate e0 "x_display" (ppoXDisplay process_ind ds),
             max_steps := r.max_steps, seed := r.seed,
             deterministic_cudnn := r.deterministic_cudnn,
             scene_period := .str "manual", max_tasks := none }, st, ws)

/-- `valid_task_sampler_args` of the PPO file. -/
def valid_task_sampler_args (st : ClassState) (process_ind total_processes : ℕ)
    (devices : Option (List ℤ)) (seeds : Option (List ℤ))
    (deterministic_cudnn : Bool) :
    Except PyError (TaskArgs × ClassState × List SamplingWarning) :=
  match _get_sampler_args_for_scene_split OBJECT_TYPES st.ENV_ARGS MAX_STEPS
      st.VALID_SCENES process_ind total_processes seeds deterministic_cudnn with
  | .error e => .error e
  | .ok (r, ws) =>
    let e0 := dictUpdateAll [] st.ENV_ARGS
    match devices with
    | none => .error .typeError
    | some ds =>
      .ok ({ scenes := r.scenes, object_types := r.object_types,
             env_args := dictUpdate e0 "x_display" (ppoXDisplay process_ind ds),
             max_steps := r.max_steps, seed := r.seed,
             deterministic_cudnn := r.deterministic_cudnn,
             scene_period := .int (VALID_SAMPLES_IN_SCENE : ℤ),
             max_tasks := some (VALID_SAMPLES_IN_SCENE * r.scenes.length) },
           st, ws)

/-- `test_task_sampler_args` of the PPO file. -/
def test_task_sampler_args (st : ClassState) (process_ind total_processes : ℕ)
    (devices : Option (List ℤ)) (seeds : Option (List ℤ))
    (deterministic_cudnn : Bool) :
    Except PyError (TaskArgs × ClassState × List SamplingWarning) :=
  match _get_sampler_args_for_scene_split OBJECT_TYPES st.ENV_ARGS MAX_STEPS
      st.TEST_SCENES process_ind total_processes seeds deterministic_cudnn with
  | .error e => .error e
  | .ok (r, ws) =>
    let e0 := dictUpdateAll [] st.ENV_ARGS
    match devices with
    | none => .error .typeError
    | some ds =>
      .ok ({ scenes := r.scenes, object_types := r.object_types,
             env_args := dictUpdate e0 "x_display" (ppoXDisplay process_ind ds),
             max_steps := r.max_steps, seed := r.seed,
             deterministic_cudnn := r.deterministic_cudnn,
             scene_period := .int (TEST_SAMPLES_IN_SCENE : ℤ),
             max_tasks := some (TEST_SAMPLES_IN_SCENE * r.scenes.length) },
           st, ws)

end ObjectManipThorPPOExperimentConfig

namespace ObjectNavThorPPOExperimentConfig

def OBJECT_TYPES : List String := ["Tomato"]

def ENV_ARGS : EnvArgs :=
  [("player_screen_height", .int 224), ("player_screen_width", .int 224),
   ("quality", .str "Very Low")]

def MAX_STEPS : ℕ := 128

def SCENE_PERIOD : ℕ := 10

def VALID_SAMPLES_IN_SCENE : ℕ := 5

def TEST_SAMPLES_IN_SCENE : ℕ := 2

/-- The class attributes as the initial `ClassState`. -/
def defaultState : ClassState :=
  ⟨ENV_ARGS, ["FloorPlan1_physics"], ["FloorPlan1_physics"],
   ["FloorPlan1_physics"]⟩

/-- `train_task_sampler_args` of the A2C file: split `TRAIN_SCENES`, set
`scene_period = SCENE_PERIOD`, then execute
`res["env_args"]["x_display"] = "0.%d" % devices[0] if len(devices) > 0 else None`.
Since `res["env_args"]` aliases the class-level `ENV_ARGS` dict, this mutates
the class state, which is returned updated. -/
def train_task_sampler_args (st : ClassState) (process_ind total_processes : ℕ)
    (devices : Option (List ℤ)) (seeds : Option (List ℤ))
    (deterministic_cudnn : Bool) :
    Except PyError (TaskArgs × ClassState × List SamplingWarning) :=
  match _get_sampler_args_for_scene_split OBJECT_TYPES st.ENV_ARGS MAX_STEPS
      st.TRAIN_SCENES process_ind total_processes seeds deterministic_cudnn with
  | .error e => .error e
  | .ok (r, ws) =>
    match devices with
    | none => .error .typeError
    | some ds =>
      let e1 := dictUpdate st.ENV_ARGS "x_display" (a2cXDisplay ds)
      .ok ({ scenes := r.scenes, object_types := r.object_types,
             env_args := e1, max_steps := r.max_steps, seed := r.seed,
             deterministic_cudnn := r.deterministic_cudnn,
             scene_period := .int (SCENE_PERIOD : ℤ), max_tasks := none },
           { st with ENV_ARGS := e1 }, ws)

/-- `valid_task_sampler_args` of the A2C file (same aliased mutation). -/
def valid_task_sampler_args (st : ClassState) (process_ind total_processes : ℕ)
    (devices : Option (List ℤ)) (seeds : Option (List ℤ))
    (deterministic_cudnn : Bool) :
    Except PyError (TaskArgs × ClassState × List SamplingWarning) :=
  match _get_sampler_args_for_scene_split OBJECT_TYPES st.ENV_ARGS MAX_STEPS
      st.VALID_SCENES process_ind total_processes seeds deterministic_cudnn with
  | .error e => .error e
  | .ok (r, ws) =>
    match devices with
    | none => .error .typeError
    | some ds =>
      let e1 := dictUpdate st.ENV_ARGS "x_display" (a2cXDisplay ds)
      .ok ({ scenes := r.scenes, object_types := r.object_types,
             env_args := e1, max_steps := r.max_steps, seed := r.seed,
             deterministic_cudnn := r.deterministic_cudnn,
             scene_period := .int (VALID_SAMPLES_IN_SCENE : ℤ),
             max_tasks := some (VALID_SAMPLES_IN_SCENE * r.scenes.length) },
           { st with ENV_ARGS := e1 }, ws)

/-- `test_task_sampler_args` of the A2C file (same aliased mutation). -/
def test_task_sampler_args (st : ClassState) (process_ind total_processes : ℕ)
    (devices : Option (List ℤ)) (seeds : Option (List ℤ))
    (deterministic_cudnn : Bool) :
    Except PyError (TaskArgs × ClassState × List SamplingWarning) :=
  match _get_sampler_args_for_scene_split OBJECT_TYPES st.ENV_ARGS MAX_STEPS
      st.TEST_SCENES process_ind total_processes seeds deterministic_cudnn with
  | .error e => .error e
  | .ok (r, ws) =>
    match devices with
    | none => .error .typeError
    | some ds =>
      let e1 := dictUpdate st.ENV_ARGS "x_display" (a2cXDisplay ds)
      .ok ({ scenes := r.scenes, object_types := r.object_types,
             env_args := e1, max_steps := r.max_steps, seed := r.seed,
             deterministic_cudnn := r.deterministic_cudnn,
             scene_period := .int (TEST_SAMPLES_IN_SCENE : ℤ),
             max_tasks := some (TEST_SAMPLES_IN_SCENE * r.scenes.length) },
           { st with ENV_ARGS := e1 }, ws)

end ObjectNavThorPPOExperimentConfig

/-! ### Arithmetic lemmas about the half-to-even rounding and the boundaries -/

/-- `roundHalfToEven` on an explicit quotient-remainder decomposition. -/
lemma rhte_decomp (b q r : ℕ) (hb : 0 < b) (hr : r < b) :
    roundHalfToEven (b * q + r) b =
      if 2 * r < b then q
      else if b < 2 * r then q + 1
      else if q % 2 = 0 then q else q + 1 := by
  unfold roundHalfToEven
  simp only [Nat.mul_add_div hb, Nat.mul_add_mod, Nat.div_eq_of_lt hr,
    Nat.mod_eq_of_lt hr, Nat.add_zero]

/-- The rounded value is at most a half above the fraction. -/
lemma roundHalfToEven_le (a b : ℕ) (hb : 0 < b) :
    2 * b * roundHalfToEven a b ≤ 2 * a + b := by
  obtain ⟨q, r, hrb, rfl⟩ : ∃ q r, r < b ∧ a = b * q + r :=
    ⟨a / b, a % b, Nat.mod_lt _ hb, (Nat.div_add_mod a b).symm⟩
  rw [rhte_decomp b q r hb hrb]
  split_ifs <;> nlinarith

/-- The rounded value is at most a half below the fraction. -/
lemma le_roundHalfToEven (a b : ℕ) (hb : 0 < b) :
    2 * a ≤ 2 * b * roundHalfToEven a b + b := by
  obtain ⟨q, r, hrb, rfl⟩ : ∃ q r, r < b ∧ a = b * q + r :=
    ⟨a / b, a % b, Nat.mod_lt _ hb, (Nat.div_add_mod a b).symm⟩
  rw [rhte_decomp b q r hb hrb]
  split_ifs <;> nlinarith

/-- Half-to-even rounding is monotone in the numerator. -/
lemma roundHalfToEven_mono {a a' b : ℕ} (hb : 0 < b) (h : a ≤ a') :
    roundHalfToEven a b ≤ roundHalfToEven a' b := by
  obtain ⟨q, r, hrb, rfl⟩ : ∃ q r, r < b ∧ a = b * q + r :=
    ⟨a / b, a % b, Nat.mod_lt _ hb, (Nat.div_add_mod a b).symm⟩
  obtain ⟨q', r', hrb', rfl⟩ : ∃ q r, r < b ∧ a' = b * q + r :=
    ⟨a' / b, a' % b, Nat.mod_lt _ hb, (Nat.div_add_mod a' b).symm⟩
  rw [rhte_decomp b q r hb hrb, rhte_decomp b q' r' hb hrb']
  have hqq : q ≤ q' := by
    by_contra hc
    push_neg at hc
    have h1 : b * (q' + 1) ≤ b * q := Nat.mul_le_mul_left b hc
    rw [Nat.mul_succ] at h1
    linarith
  rcases Nat.eq_or_lt_of_le hqq with heq | hlt
  · subst heq
    have hrr : r ≤ r' := by linarith
    split_ifs <;> omega
  · split_ifs <;> omega

lemma boundary_zero (n P : ℕ) (hP : 0 < P) : boundary n P 0 = 0 := by
  have h := rhte_decomp P 0 0 hP hP
  simp only [Nat.mul_zero, Nat.add_zero] at h
  unfold boundary
  rw [Nat.zero_mul, h]
  simp [hP]

lemma boundary_last (n P : ℕ) (hP : 0 < P) : boundary n P P = n := by
  have h := rhte_decomp P n 0 hP hP
  simp only [Nat.add_zero] at h
  unfold boundary
  rw [h]
  have h2 : 2 * 0 < P := by omega
  rw [if_pos h2]

lemma boundary_mono (n P : ℕ) (hP : 0 < P) {i j : ℕ} (hij : i ≤ j) :
    boundary n P i ≤ boundary n P j :=
  roundHalfToEven_mono hP (Nat.mul_le_mul_right n hij)

/-- When the length is an exact multiple of the part count, every boundary is
exact: `round(i * n / P) = i * (n / P)`. -/
lemma boundary_of_dvd (n P i : ℕ) (hP : 0 < P) (hd : P ∣ n) :
    boundary n P i = i * (n / P) := by
  obtain ⟨k, rfl⟩ := hd
  unfold boundary
  have h1 : i * (P * k) = P * (i * k) + 0 := by ring
  rw [h1, rhte_decomp P (i * k) 0 hP hP]
  have h2 : 2 * 0 < P := by omega
  rw [if_pos h2, Nat.mul_div_cancel_left k hP]

/-- Each bucket holds at most `n / P + 1` indices. -/
lemma boundary_len_le (n P i : ℕ) (hP : 0 < P) :
    boundary n P (i + 1) - boundary n P i ≤ n / P + 1 := by
  obtain ⟨Q, R, hn, hm⟩ : ∃ Q R, P * Q + R = n ∧ R < P :=
    ⟨n / P, n % P, Nat.div_add_mod n P, Nat.mod_lt _ hP⟩
  have hQ : n / P = Q := by
    rw [← hn, Nat.mul_add_div hP, Nat.div_eq_of_lt hm, Nat.add_zero]
  rw [hQ]
  have hb1 := roundHalfToEven_le ((i + 1) * n) P hP
  have hb2 := le_roundHalfToEven (i * n) P hP
  have hin : (i + 1) * n = i * n + n := by ring
  unfold boundary
  by_contra hc
  push_neg at hc
  have h3 : roundHalfToEven (i * n) P + (Q + 2) ≤
      roundHalfToEven ((i + 1) * n) P := by omega
  have h4 : 2 * P * (roundHalfToEven (i * n) P + (Q + 2)) ≤
      2 * P * roundHalfToEven ((i + 1) * n) P :=
    Nat.mul_le_mul_left _ h3
  have h5 : 2 * P * (roundHalfToEven (i * n) P + (Q + 2)) =
      2 * P * roundHalfToEven (i * n) P + 2 * (P * Q) + 4 * P := by
    ring
  linarith

/-- When `P` does not divide `n`, each bucket holds at least `n / P` indices. -/
lemma boundary_len_ge (n P j : ℕ) (hP : 0 < P) (hr : n % P ≠ 0) :
    n / P ≤ boundary n P (j + 1) - boundary n P j := by
  obtain ⟨Q, R, hn, hm⟩ : ∃ Q R, P * Q + R = n ∧ R < P :=
    ⟨n / P, n % P, Nat.div_add_mod n P, Nat.mod_lt _ hP⟩
  have hQ : n / P = Q := by
    rw [← hn, Nat.mul_add_div hP, Nat.div_eq_of_lt hm, Nat.add_zero]
  have hR : n % P = R := by
    rw [← hn, Nat.mul_add_mod, Nat.mod_eq_of_lt hm]
  rw [hQ]
  rw [hR] at hr
  have hR0 : 0 < R := Nat.pos_of_ne_zero hr
  have hb1 := le_roundHalfToEven ((j + 1) * n) P hP
  have hb2 := roundHalfToEven_le (j * n) P hP
  have hmono : roundHalfToEven (j * n) P ≤ roundHalfToEven ((j + 1) * n) P :=
    roundHalfToEven_mono hP (Nat.mul_le_mul_right n (Nat.le_succ j))
  have hin : (j + 1) * n = j * n + n := by ring
  unfold boundary
  by_contra hc
  push_neg at hc
  have h3 : roundHalfToEven ((j + 1) * n) P + 1 ≤
      roundHalfToEven (j * n) P + Q := by omega
  have h4 : 2 * P * (roundHalfToEven ((j + 1) * n) P + 1) ≤
      2 * P * (roundHalfToEven (j * n) P + Q) :=
    Nat.mul_le_mul_left _ h3
  have h5 : 2 * P * (roundHalfToEven (j * n) P + Q) =
      2 * P * roundHalfToEven (j * n) P + 2 * (P * Q) := by ring
  have h6 : 2 * P * (roundHalfToEven ((j + 1) * n) P + 1) =
      2 * P * roundHalfToEven ((j + 1) * n) P + 2 * P := by ring
  linarith

/-- Any two buckets differ in size by at most one index. -/
lemma boundary_len_balanced (n P i j : ℕ) (hP : 0 < P) :
    boundary n P (i + 1) - boundary n P i ≤
      (boundary n P (j + 1) - boundary n P j) + 1 := by
  by_cases hr : n % P = 0
  · have hd : P ∣ n := Nat.dvd_of_mod_eq_zero hr
    have h1 := boundary_of_dvd n P i hP hd
    have h2 := boundary_of_dvd n P (i + 1) hP hd
    have h3 := boundary_of_dvd n P j hP hd
    have h4 := boundary_of_dvd n P (j + 1) hP hd
    rw [h1, h2, h3, h4]
    have e1 : (i + 1) * (n / P) = i * (n / P) + n / P := by ring
    have e2 : (j + 1) * (n / P) = j * (n / P) + n / P := by ring
    rw [e1, e2]
    omega
  · have h1 := boundary_len_le n P i hP
    have h2 := boundary_len_ge n P j hP hr
    omega

/-- Every index below `n` falls into some bucket. -/
lemma boundary_exists_cover (n P : ℕ) (hP : 0 < P) (k : ℕ) (hk : k < n) :
    ∃ i, i < P ∧ boundary n P i ≤ k ∧ k < boundary n P (i + 1) := by
  have hlast : boundary n P P = n := boundary_last n P hP
  have hex : ∃ m, k < boundary n P m := ⟨P, by rw [hlast]; exact hk⟩
  have hm : k < boundary n P (Nat.find hex) := Nat.find_spec hex
  have hm0 : Nat.find hex ≠ 0 := by
    intro h0
    rw [h0, boundary_zero n P hP] at hm
    omega
  have hmle : Nat.find hex ≤ P := Nat.find_le (by rw [hlast]; exact hk)
  refine ⟨Nat.find hex - 1, by omega, ?_, ?_⟩
  · have hnot := Nat.find_min hex (m := Nat.find hex - 1) (by omega)
    omega
  · have hsucc : Nat.find hex - 1 + 1 = Nat.find hex := by omega
    rw [hsucc]
    exact hm

/-! ### List, dict and normalization lemmas -/

lemma listRepeat_length {α : Type} (l : List α) (n : ℕ) :
    (listRepeat l n).length = n * l.length := by
  induction n with
  | zero => simp [listRepeat]
  | succ n ih =>
    simp only [listRepeat, List.length_append, ih]
    ring

lemma pyCeilDiv_mul_ge (a b : ℕ) (hb : 0 < b) : a ≤ pyCeilDiv a b * b := by
  rcases Nat.eq_zero_or_pos a with rfl | ha
  · exact Nat.zero_le _
  · obtain ⟨c, rfl⟩ : ∃ c, a = c + 1 := ⟨a - 1, by omega⟩
    unfold pyCeilDiv
    have hstep : c + 1 + b - 1 = c + b := by omega
    rw [hstep]
    have h := Nat.div_add_mod (c + b) b
    have hm : (c + b) % b < b := Nat.mod_lt _ hb
    linarith

lemma oversampleScenes_length (scenes : List String) (P : ℕ) :
    (oversampleScenes scenes P).length =
      P * ((listRepeat scenes (pyCeilDiv P scenes.length)).length / P) := by
  unfold oversampleScenes
  rw [List.length_take]
  exact Nat.min_eq_left (by rw [Nat.mul_comm]; exact Nat.div_mul_le_self _ _)

lemma dvd_oversampleScenes_length (scenes : List String) (P : ℕ) :
    P ∣ (oversampleScenes scenes P).length := by
  rw [oversampleScenes_length]
  exact Dvd.intro _ rfl

lemma le_oversampleScenes_length (scenes : List String) (P : ℕ)
    (hL : 0 < scenes.length) (hPL : scenes.length < P) :
    P ≤ (oversampleScenes scenes P).length := by
  have hP : 0 < P := by omega
  rw [oversampleScenes_length, listRepeat_length]
  have h1 : P ≤ pyCeilDiv P scenes.length * scenes.length :=
    pyCeilDiv_mul_ge P scenes.length hL
  have h2 : 1 ≤ pyCeilDiv P scenes.length * scenes.length / P :=
    (Nat.one_le_div_iff hP).mpr h1
  calc P = P * 1 := by ring
    _ ≤ P * (pyCeilDiv P scenes.length * scenes.length / P) :=
        Nat.mul_le_mul_left P h2

/-- When the part count divides the (effective) length, every worker receives
exactly `length / P` scenes. -/
lemma assignedScenes_length_of_dvd (scenes : List String) (P i : ℕ)
    (hP : 0 < P) (hi : i < P) (hd : P ∣ (effList scenes P).length) :
    (assignedScenes scenes P i).length = (effList scenes P).length / P := by
  obtain ⟨K, hK⟩ := hd
  simp only [assignedScenes]
  have hb1 := boundary_of_dvd (effList scenes P).length P i hP ⟨K, hK⟩
  have hb2 := boundary_of_dvd (effList scenes P).length P (i + 1) hP ⟨K, hK⟩
  have hKd : (effList scenes P).length / P = K := by
    rw [hK, Nat.mul_div_cancel_left K hP]
  rw [List.length_take, List.length_drop, hb1, hb2, hKd, hK]
  have h1 : (i + 1) * K = i * K + K := by ring
  have h2 : (i + 1) * K ≤ P * K := Nat.mul_le_mul_right _ hi
  omega

lemma dictGet_dictUpdate_self (d : EnvArgs) (k : String) (v : EnvVal) :
    dictGet (dictUpdate d k v) k = some v := by
  induction d with
  | nil => simp [dictUpdate, dictGet]
  | cons p t ih =>
    by_cases h : p.1 = k
    · simp [dictUpdate, dictGet, h]
    · simp [dictUpdate, dictGet, h, ih]

lemma dictGet_dictUpdate_ne (d : EnvArgs) (k k' : String) (v : EnvVal)
    (h : k' ≠ k) : dictGet (dictUpdate d k v) k' = dictGet d k' := by
  have hkk : ¬ k = k' := fun he => h (Eq.symm he)
  induction d with
  | nil => simp [dictUpdate, dictGet, hkk]
  | cons p t ih =>
    by_cases hp : p.1 = k
    · have hpk : ¬ p.1 = k' := by rw [hp]; exact hkk
      simp [dictUpdate, dictGet, hp, hkk, hpk]
    · by_cases hp' : p.1 = k'
      · simp [dictUpdate, dictGet, hp, hp', h]
      · simp [dictUpdate, dictGet, hp, hp', ih]

lemma dictUpdate_dictUpdate (d : EnvArgs) (k : String) (v w : EnvVal) :
    dictUpdate (dictUpdate d k v) k w = dictUpdate d k w := by
  induction d with
  | nil => simp [dictUpdate]
  | cons p t ih =>
    by_cases h : p.1 = k
    · simp [dictUpdate, h]
    · simp [dictUpdate, h, ih]

/-! ### Shape lemmas for `_get_sampler_args_for_scene_split` -/

lemma pyIndex_ok {α : Type} (l : List α) (i : ℕ) (h : i < l.length) :
    pyIndex l i = .ok (l.get ⟨i, h⟩) := by
  unfold pyIndex
  simp [List.getElem?_eq_getElem h]

lemma pyIndex_oob {α : Type} (l : List α) (i : ℕ) (h : l.length ≤ i) :
    pyIndex l i = .error .indexError := by
  unfold pyIndex
  simp [List.getElem?_eq_none h]

lemma partition_inds_index (n P i : ℕ) (hi : i < P + 1) :
    pyIndex (_partition_inds n P) i = .ok (boundary n P i) := by
  unfold pyIndex _partition_inds
  simp [List.getElem?_map, List.getElem?_range, hi]

lemma effectiveScenes_ok (scenes : List String) (P : ℕ)
    (h0 : scenes ≠ []) (hP : 0 < P) :
    effectiveScenes scenes P = .ok (effList scenes P, splitWarnings scenes P) := by
  have hL : 0 < scenes.length := List.length_pos.mpr h0
  have hL0 : scenes.length ≠ 0 := by omega
  have hP0 : P ≠ 0 := by omega
  unfold effectiveScenes effList splitWarnings pyMod
  by_cases hlt : scenes.length < P
  · simp [hlt, hL0]
  · simp [hlt, hP0]

/-- On a valid worker call with `seeds = None`, the split returns the
assigned slice, the class attributes, no seed, and the warnings. -/
lemma split_ok_none (OT : List String) (EA : EnvArgs) (MS : ℕ)
    (scenes : List String) (p P : ℕ) (det : Bool)
    (h0 : scenes ≠ []) (hp : p < P) :
    _get_sampler_args_for_scene_split OT EA MS scenes p P none det =
      .ok (⟨assignedScenes scenes P p, OT, EA, MS, none, det⟩,
        splitWarnings scenes P) := by
  have hP : 0 < P := by omega
  have e1 := effectiveScenes_ok scenes P h0 hP
  have e2 := partition_inds_index (effList scenes P).length P p (by omega)
  have e3 := partition_inds_index (effList scenes P).length P (p + 1) (by omega)
  simp only [_get_sampler_args_for_scene_split, e1, e2, e3]
  rfl

/-- On a valid worker call with a seeds list long enough, the split returns
`seed = seeds[process_ind]`. -/
lemma split_ok_seed (OT : List String) (EA : EnvArgs) (MS : ℕ)
    (scenes : List String) (p P : ℕ) (l : List ℤ) (det : Bool)
    (h0 : scenes ≠ []) (hp : p < P) (hl : p < l.length) :
    _get_sampler_args_for_scene_split OT EA MS scenes p P (some l) det =
      .ok (⟨assignedScenes scenes P p, OT, EA, MS, some (l.get ⟨p, hl⟩), det⟩,
        splitWarnings scenes P) := by
  have hP : 0 < P := by omega
  have e1 := effectiveScenes_ok scenes P h0 hP
  have e2 := partition_inds_index (effList scenes P).length P p (by omega)
  have e3 := partition_inds_index (effList scenes P).length P (p + 1) (by omega)
  have e4 := pyIndex_ok l p hl
  simp only [_get_sampler_args_for_scene_split, e1, e2, e3, e4]
  rfl

/-- On a valid worker call with a seeds list too short, the split raises
IndexError at the `seeds[process_ind]` access. -/
lemma split_seed_oob (OT : List String) (EA : EnvArgs) (MS : ℕ)
    (scenes : List String) (p P : ℕ) (l : List ℤ) (det : Bool)
    (h0 : scenes ≠ []) (hp : p < P) (hl : l.length ≤ p) :
    _get_sampler_args_for_scene_split OT EA MS scenes p P (some l) det =
      .error .indexError := by
  have hP : 0 < P := by omega
  have e1 := effectiveScenes_ok scenes P h0 hP
  have e2 := partition_inds_index (effList scenes P).length P p (by omega)
  have e3 := partition_inds_index (effList scenes P).length P (p + 1) (by omega)
  have e4 := pyIndex_oob l p hl
  simp only [_get_sampler_args_for_scene_split, e1, e2, e3, e4]

/-! ### Shape lemmas for the six wrapper methods (seeds = None) -/

lemma ppoTrain_ok (st : ClassState) (p P : ℕ) (ds : List ℤ) (det : Bool)
    (h0 : st.TRAIN_SCENES ≠ []) (hp : p < P) :
    ObjectManipThorPPOExperimentConfig.train_task_sampler_args st p P
        (some ds) none det =
      .ok ({ scenes := assignedScenes st.TRAIN_SCENES P p,
             object_types := ObjectManipThorPPOExperimentConfig.OBJECT_TYPES,
             env_args := dictUpdate (dictUpdateAll [] st.ENV_ARGS) "x_display"
               (ppoXDisplay p ds),
             max_steps := ObjectManipThorPPOExperimentConfig.MAX_STEPS,
             seed := none, deterministic_cudnn := det,
             scene_period := .str "manual", max_tasks := none },
           st, splitWarnings st.TRAIN_SCENES P) := by
  unfold ObjectManipThorPPOExperimentConfig.train_task_sampler_args
  rw [split_ok_none _ _ _ _ _ _ _ h0 hp]

lemma ppoValid_ok (st : ClassState) (p P : ℕ) (ds : List ℤ) (det : Bool)
    (h0 : st.VALID_SCENES ≠ []) (hp : p < P) :
    ObjectManipThorPPOExperimentConfig.valid_task_sampler_args st p P
        (some ds) none det =
      .ok ({ scenes := assignedScenes st.VALID_SCENES P p,
             object_types := ObjectManipThorPPOExperimentConfig.OBJECT_TYPES,
             env_args := dictUpdate (dictUpdateAll [] st.ENV_ARGS) "x_display"
               (ppoXDisplay p ds),
             max_steps := ObjectManipThorPPOExperimentConfig.MAX_STEPS,
             seed := none, deterministic_cudnn := det,
             scene_period :=
               .int (ObjectManipThorPPOExperimentConfig.VALID_SAMPLES_IN_SCENE : ℤ),
             max_tasks := some
               (ObjectManipThorPPOExperimentConfig.VALID_SAMPLES_IN_SCENE *
                 (assignedScenes st.VALID_SCENES P p).length) },
           st, splitWarnings st.VALID_SCENES P) := by
  unfold ObjectManipThorPPOExperimentConfig.valid_task_sampler_args
  rw [split_ok_none _ _ _ _ _ _ _ h0 hp]

lemma ppoTest_ok (st : ClassState) (p P : ℕ) (ds : List ℤ) (det : Bool)
    (h0 : st.TEST_SCENES ≠ []) (hp : p < P) :
    ObjectManipThorPPOExperimentConfig.test_task_sampler_args st p P
        (some ds) none det =
      .ok ({ scenes := assignedScenes st.TEST_SCENES P p,
             object_types := ObjectManipThorPPOExperimentConfig.OBJECT_TYPES,
             env_args := dictUpdate (dictUpdateAll [] st.ENV_ARGS) "x_display"
               (ppoXDisplay p ds),
             max_steps := ObjectManipThorPPOExperimentConfig.MAX_STEPS,
             seed := none, deterministic_cudnn := det,
             scene_period :=
               .int (ObjectManipThorPPOExperimentConfig.TEST_SAMPLES_IN_SCENE : ℤ),
             max_tasks := some
               (ObjectManipThorPPOExperimentConfig.TEST_SAMPLES_IN_SCENE *
                 (assignedScenes st.TEST_SCENES P p).length) },
           st, splitWarnings st.TEST_SCENES P) := by
  unfold ObjectManipThorPPOExperimentConfig.test_task_sampler_args
  rw [split_ok_none _ _ _ _ _ _ _ h0 hp]

lemma a2cTrain_ok (st : ClassState) (p P : ℕ) (ds : List ℤ) (det : Bool)
    (h0 : st.TRAIN_SCENES ≠ []) (hp : p < P) :
    ObjectNavThorPPOExperimentConfig.train_task_sampler_args st p P
        (some ds) none det =
      .ok ({ scenes := assignedScenes st.TRAIN_SCENES P p,
             object_types := ObjectNavThorPPOExperimentConfig.OBJECT_TYPES,
             env_args := dictUpdate st.ENV_ARGS "x_display" (a2cXDisplay ds),
             max_steps := ObjectNavThorPPOExperimentConfig.MAX_STEPS,
             seed := none, deterministic_cudnn := det,
             scene_period :=
               .int (ObjectNavThorPPOExperimentConfig.SCENE_PERIOD : ℤ),
             max_tasks := none },
           { st with
               ENV_ARGS := dictUpdate st.ENV_ARGS "x_display" (a2cXDisplay ds) },
           splitWarnings st.TRAIN_SCENES P) := by
  unfold ObjectNavThorPPOExperimentConfig.train_task_sampler_args
  rw [split_ok_none _ _ _ _ _ _ _ h0 hp]

lemma a2cValid_ok (st : ClassState) (p P : ℕ) (ds : List ℤ) (det : Bool)
    (h0 : st.VALID_SCENES ≠ []) (hp : p < P) :
    ObjectNavThorPPOExperimentConfig.valid_task_sampler_args st p P
        (some ds) none det =
      .ok ({ scenes := assignedScenes st.VALID_SCENES P p,
             object_types := ObjectNavThorPPOExperimentConfig.OBJECT_TYPES,
             env_args := dictUpdate st.ENV_ARGS "x_display" (a2cXDisplay ds),
             max_steps := ObjectNavThorPPOExperimentConfig.MAX_STEPS,
             seed := none, deterministic_cudnn := det,
             scene_period :=
               .int (ObjectNavThorPPOExperimentConfig.VALID_SAMPLES_IN_SCENE : ℤ),
             max_tasks := some
               (ObjectNavThorPPOExperimentConfig.VALID_SAMPLES_IN_SCENE *
                 (assignedScenes st.VALID_SCENES P p).length) },
           { st with
               ENV_ARGS := dictUpdate st.ENV_ARGS "x_display" (a2cXDisplay ds) },
           splitWarnings st.VALID_SCENES P) := by
  unfold ObjectNavThorPPOExperimentConfig.valid_task_sampler_args
  rw [split_ok_none _ _ _ _ _ _ _ h0 hp]

lemma a2cTest_ok (st : ClassState) (p P : ℕ) (ds : List ℤ) (det : Bool)
    (h0 : st.TEST_SCENES ≠ []) (hp : p < P) :
    ObjectNavThorPPOExperimentConfig.test_task_sampler_args st p P
        (some ds) none det =
      .ok ({ scenes := assignedScenes st.TEST_SCENES P p,
             object_types := ObjectNavThorPPOExperimentConfig.OBJECT_TYPES,
             env_args := dictUpdate st.ENV_ARGS "x_display" (a2cXDisplay ds),
             max_steps := ObjectNavThorPPOExperimentConfig.MAX_STEPS,
             seed := none, deterministic_cudnn := det,
             scene_period :=
               .int (ObjectNavThorPPOExperimentConfig.TEST_SAMPLES_IN_SCENE : ℤ),
             max_tasks := some
               (ObjectNavThorPPOExperimentConfig.TEST_SAMPLES_IN_SCENE *
                 (assignedScenes st.TEST_SCENES P p).length) },
           { st with
               ENV_ARGS := dictUpdate st.ENV_ARGS "x_display" (a2cXDisplay ds) },
           splitWarnings st.TEST_SCENES P) := by
  unfold ObjectNavThorPPOExperimentConfig.test_task_sampler_args
  rw [split_ok_none _ _ _ _ _ _ _ h0 hp]

/-! ### Claim theorems -/

/-- C1: for every scene-list length `L` and process count `P` with
`0 < P <= L`, the boundaries produced by `_partition_inds` start at 0, end at
`L`, are monotone (so the per-worker index ranges are contiguous), cover every
index below `L` exactly once (pairwise non-overlapping, union-covering), and
any two bucket lengths differ by at most 1. -/
theorem partition_contiguous_balanced (L P : ℕ) (hP : 0 < P) (hPL : P ≤ L) :
    boundary L P 0 = 0 ∧ boundary L P P = L ∧
    (∀ i j, i ≤ j → boundary L P i ≤ boundary L P j) ∧
    (∀ k, k < L → ∃! i, i < P ∧ boundary L P i ≤ k ∧ k < boundary L P (i + 1)) ∧
    (∀ i j, i < P → j < P →
      boundary L P (i + 1) - boundary L P i ≤
        (boundary L P (j + 1) - boundary L P j) + 1) := by
  refine ⟨boundary_zero L P hP, boundary_last L P hP,
    fun i j hij => boundary_mono L P hP hij, ?_,
    fun i j _ _ => boundary_len_balanced L P i j hP⟩
  intro k hk
  obtain ⟨i, hiP, hle, hlt⟩ := boundary_exists_cover L P hP k hk
  refine ⟨i, ⟨hiP, hle, hlt⟩, ?_⟩
  rintro j ⟨hjP, hjle, hjlt⟩
  by_contra hne
  rcases Nat.lt_or_ge j i with hji | hij2
  · have hbb : boundary L P (j + 1) ≤ boundary L P i := boundary_mono L P hP hji
    omega
  · have hij3 : i + 1 ≤ j := by omega
    have hbb : boundary L P (i + 1) ≤ boundary L P j := boundary_mono L P hP hij3
    omega

/-- Witness for C1 at `L = 5`, `P = 3`. -/
theorem partition_contiguous_balanced_witness :
    0 < 3 ∧ 3 ≤ 5 ∧
    (boundary 5 3 0 = 0 ∧ boundary 5 3 3 = 5 ∧
     (∀ i j, i ≤ j → boundary 5 3 i ≤ boundary 5 3 j) ∧
     (∀ k, k < 5 → ∃! i, i < 3 ∧ boundary 5 3 i ≤ k ∧ k < boundary 5 3 (i + 1)) ∧
     (∀ i j, i < 3 → j < 3 →
       boundary 5 3 (i + 1) - boundary 5 3 i ≤
         (boundary 5 3 (j + 1) - boundary 5 3 j) + 1)) :=
  ⟨by decide, by decide, partition_contiguous_balanced 5 3 (by decide) (by decide)⟩

/-- C2: for `P > L > 0`, the oversampling normalization produces an effective
scene list whose length is an exact multiple of `P`, the split succeeds for
every worker index, and every worker receives at least one scene. -/
theorem oversample_multiple_and_nonempty (scenes : List String) (P i : ℕ)
    (OT : List String) (EA : EnvArgs) (MS : ℕ) (det : Bool)
    (hL : 0 < scenes.length) (hPL : scenes.length < P) (hi : i < P) :
    P ∣ (effList scenes P).length ∧
    _get_sampler_args_for_scene_split OT EA MS scenes i P none det =
      .ok (⟨assignedScenes scenes P i, OT, EA, MS, none, det⟩,
        splitWarnings scenes P) ∧
    assignedScenes scenes P i ≠ [] := by
  have h0 : scenes ≠ [] := by
    intro h
    rw [h] at hL
    simp at hL
  have heff : effList scenes P = oversampleScenes scenes P := by
    unfold effList
    rw [if_pos hPL]
  have hdvd : P ∣ (effList scenes P).length := by
    rw [heff]
    exact dvd_oversampleScenes_length scenes P
  refine ⟨hdvd, split_ok_none OT EA MS scenes i P det h0 hi, ?_⟩
  have hlen := assignedScenes_length_of_dvd scenes P i (by omega) hi hdvd
  have hPle : P ≤ (effList scenes P).length := by
    rw [heff]
    exact le_oversampleScenes_length scenes P hL hPL
  have h1 : 1 ≤ (effList scenes P).length / P :=
    (Nat.one_le_div_iff (by omega)).mpr hPle
  intro hnil
  rw [hnil] at hlen
  simp at hlen
  omega

/-- Witness for C2 at `scenes = ["s0"]`, `P = 4`, worker 2. -/
theorem oversample_multiple_and_nonempty_witness :
    4 ∣ (effList ["s0"] 4).length ∧
    _get_sampler_args_for_scene_split [] [] 0 ["s0"] 2 4 none false =
      .ok (⟨assignedScenes ["s0"] 4 2, [], [], 0, none, false⟩,
        splitWarnings ["s0"] 4) ∧
    assignedScenes ["s0"] 4 2 ≠ [] :=
  oversample_multiple_and_nonempty ["s0"] 4 2 [] [] 0 false (by decide)
    (by decide) (by decide)

/-- C3: for `scenes = ["s0","s1","s2","s3","s4"]` and `total_processes = 3`,
the boundaries are `[0, 2, 3, 5]`, worker 0 gets `["s0","s1"]`, worker 1 gets
`["s2"]`, worker 2 gets `["s3","s4"]`, and the imbalance warning of the
`len(scenes) % total_processes != 0` branch is printed since `5 % 3 ≠ 0`. -/
theorem concrete_partition_five_scenes_three_workers :
    _partition_inds 5 3 = [0, 2, 3, 5] ∧
    _get_sampler_args_for_scene_split
        ObjectManipThorPPOExperimentConfig.OBJECT_TYPES
        ObjectManipThorPPOExperimentConfig.ENV_ARGS 128
        ["s0", "s1", "s2", "s3", "s4"] 0 3 none false =
      .ok (⟨["s0", "s1"], ObjectManipThorPPOExperimentConfig.OBJECT_TYPES,
            ObjectManipThorPPOExperimentConfig.ENV_ARGS, 128, none, false⟩,
        [.unevenPartition]) ∧
    _get_sampler_args_for_scene_split
        ObjectManipThorPPOExperimentConfig.OBJECT_TYPES
        ObjectManipThorPPOExperimentConfig.ENV_ARGS 128
        ["s0", "s1", "s2", "s3", "s4"] 1 3 none false =
      .ok (⟨["s2"], ObjectManipThorPPOExperimentConfig.OBJECT_TYPES,
            ObjectManipThorPPOExperimentConfig.ENV_ARGS, 128, none, false⟩,
        [.unevenPartition]) ∧
    _get_sampler_args_for_scene_split
        ObjectManipThorPPOExperimentConfig.OBJECT_TYPES
        ObjectManipThorPPOExperimentConfig.ENV_ARGS 128
        ["s0", "s1", "s2", "s3", "s4"] 2 3 none false =
      .ok (⟨["s3", "s4"], ObjectManipThorPPOExperimentConfig.OBJECT_TYPES,
            ObjectManipThorPPOExperimentConfig.ENV_ARGS, 128, none, false⟩,
        [.unevenPartition]) ∧
    5 % 3 ≠ 0 :=
  ⟨rfl, rfl, rfl, rfl, by decide⟩

/-- C4 counterexample: for `scenes = ["s0"]`, `total_processes = 4`, no warning
is printed — `total_processes % len(scenes) = 4 % 1 = 0`, so the oversampling
branch is silent, contradicting the claimed warning emission. -/
theorem concrete_oversample_warning_counterexample :
    ¬ ∃ eff ws, effectiveScenes ["s0"] 4 = .ok (eff, ws) ∧
      ws ≠ ([] : List SamplingWarning) := by
  rintro ⟨eff, ws, h, hne⟩
  have hh : effectiveScenes ["s0"] 4 =
      .ok (["s0", "s0", "s0", "s0"], ([] : List SamplingWarning)) := rfl
  rw [hh] at h
  injection h with h1
  injection h1 with h2 h3
  exact hne h3.symm

/-- C4 amended: the list is replicated to `["s0","s0","s0","s0"]` and each of
the 4 workers receives exactly one `"s0"`, but no warning is emitted because
`4 % 1 = 0`. -/
theorem concrete_oversample_each_worker_one_scene :
    effectiveScenes ["s0"] 4 = .ok (["s0", "s0", "s0", "s0"], []) ∧
    assignedScenes ["s0"] 4 0 = ["s0"] ∧ assignedScenes ["s0"] 4 1 = ["s0"] ∧
    assignedScenes ["s0"] 4 2 = ["s0"] ∧ assignedScenes ["s0"] 4 3 = ["s0"] ∧
    4 % 1 = 0 :=
  ⟨rfl, rfl, rfl, rfl, rfl, rfl⟩

/-- C7 counterexample: with an empty scene list the assembler fails with
ZeroDivisionError (from `total_processes % len(scenes)`), not with the
ConfigurationError the claim requires. -/
theorem empty_scenes_error_counterexample :
    _get_sampler_args_for_scene_split [] [] 0 [] 0 3 none false =
      .error .zeroDivisionError ∧
    PyError.zeroDivisionError ≠ PyError.configurationError :=
  ⟨rfl, by decide⟩

/-- C7 amended: an empty scene list or a zero process count always makes the
assembler fail — never silently defaulted — but with ZeroDivisionError from
the modulus computation, since the code defines no ConfigurationError check. -/
theorem invalid_inputs_zero_division (OT : List String) (EA : EnvArgs) (MS : ℕ)
    (scenes : List String) (p P : ℕ) (seeds : Option (List ℤ)) (det : Bool)
    (h : scenes = [] ∨ P = 0) :
    _get_sampler_args_for_scene_split OT EA MS scenes p P seeds det =
      .error .zeroDivisionError := by
  have heff : effectiveScenes scenes P = .error .zeroDivisionError := by
    unfold effectiveScenes pyMod
    rcases h with h | h
    · subst h
      by_cases hP : 0 < P
      · simp [hP]
      · have hP0 : P = 0 := by omega
        subst hP0
        simp
    · subst h
      simp
  unfold _get_sampler_args_for_scene_split
  rw [heff]

/-- Witness for the amended C7 at a zero process count. -/
theorem invalid_inputs_zero_division_witness :
    _get_sampler_args_for_scene_split [] [] 0 ["a"] 0 0 none false =
      .error .zeroDivisionError :=
  invalid_inputs_zero_division [] [] 0 ["a"] 0 0 none false (Or.inr rfl)

/-- The per-mode display-offset behaviour that actually holds: the PPO file
uses `devices[process_ind % len(devices)]`, the A2C file uses `devices[0]`,
and an empty devices list yields `None`. -/
def displayOffsetSpec (st : ClassState) (p P : ℕ) (ds : List ℤ) (det : Bool) :
    Prop :=
  (∃ a, ObjectManipThorPPOExperimentConfig.train_task_sampler_args st p P
      (some ds) none det = .ok a ∧
    dictGet a.1.env_args "x_display" = some (ppoXDisplay p ds)) ∧
  (∃ a, ObjectManipThorPPOExperimentConfig.valid_task_sampler_args st p P
      (some ds) none det = .ok a ∧
    dictGet a.1.env_args "x_display" = some (ppoXDisplay p ds)) ∧
  (∃ a, ObjectManipThorPPOExperimentConfig.test_task_sampler_args st p P
      (some ds) none det = .ok a ∧
    dictGet a.1.env_args "x_display" = some (ppoXDisplay p ds)) ∧
  (∃ a, ObjectNavThorPPOExperimentConfig.train_task_sampler_args st p P
      (some ds) none det = .ok a ∧
    dictGet a.1.env_args "x_display" = some (a2cXDisplay ds)) ∧
  (∃ a, ObjectNavThorPPOExperimentConfig.valid_task_sampler_args st p P
      (some ds) none det = .ok a ∧
    dictGet a.1.env_args "x_display" = some (a2cXDisplay ds)) ∧
  (∃ a, ObjectNavThorPPOExperimentConfig.test_task_sampler_args st p P
      (some ds) none det = .ok a ∧
    dictGet a.1.env_args "x_display" = some (a2cXDisplay ds)) ∧
  ppoXDisplay p ([] : List ℤ) = EnvVal.null ∧
  a2cXDisplay ([] : List ℤ) = EnvVal.null

/-- C5 counterexample: in the A2C file, `train_task_sampler_args` with
`devices = [7, 8]` and `process_ind = 1` sets `x_display = "0.7"` (from
`devices[0]`), while the claimed formula `devices[process_ind % len(devices)]`
selects device `8`, i.e. `"0.8"`. -/
theorem a2c_display_offset_counterexample :
    (ObjectNavThorPPOExperimentConfig.train_task_sampler_args
        ObjectNavThorPPOExperimentConfig.defaultState 1 2 (some [7, 8]) none
        false).toOption.map (fun a => dictGet a.1.env_args "x_display") =
      some (some (.str "0.7")) ∧
    ([7, 8] : List ℤ).getD (1 % 2) 0 = 8 ∧
    (EnvVal.str "0.7") ≠ (EnvVal.str ("0." ++ toString (8 : ℤ))) :=
  ⟨rfl, rfl, by decide⟩

/-- C5 amended: every mode carries an `x_display` entry in the returned
`env_args`, but the PPO file computes it from
`devices[process_ind % len(devices)]` while the A2C file computes it from
`devices[0]`; an empty devices list yields `None` in both. -/
theorem display_offset_assignment (st : ClassState) (p P : ℕ) (ds : List ℤ)
    (det : Bool) (h1 : st.TRAIN_SCENES ≠ []) (h2 : st.VALID_SCENES ≠ [])
    (h3 : st.TEST_SCENES ≠ []) (hp : p < P) :
    displayOffsetSpec st p P ds det := by
  refine ⟨⟨_, ppoTrain_ok st p P ds det h1 hp, ?_⟩,
    ⟨_, ppoValid_ok st p P ds det h2 hp, ?_⟩,
    ⟨_, ppoTest_ok st p P ds det h3 hp, ?_⟩,
    ⟨_, a2cTrain_ok st p P ds det h1 hp, ?_⟩,
    ⟨_, a2cValid_ok st p P ds det h2 hp, ?_⟩,
    ⟨_, a2cTest_ok st p P ds det h3 hp, ?_⟩, rfl, rfl⟩ <;>
  exact dictGet_dictUpdate_self _ _ _

/-- Witness for the amended C5. -/
theorem display_offset_assignment_witness :
    displayOffsetSpec ObjectManipThorPPOExperimentConfig.defaultState 0 1 [3]
      false :=
  display_offset_assignment ObjectManipThorPPOExperimentConfig.defaultState 0 1
    [3] false (by decide) (by decide) (by decide) (by decide)

/-- The `ENV_ARGS` frame behaviour that actually holds: the PPO methods leave
the class state unchanged; the A2C methods write the `x_display` key into the
shared `ENV_ARGS` dict (all other keys unchanged); and for every one of the
six methods a second identical call, made from the state the first call left
behind, returns the identical result. -/
def envArgsEffectsSpec (st : ClassState) (p P : ℕ) (ds : List ℤ) (det : Bool) :
    Prop :=
  (∃ a, ObjectManipThorPPOExperimentConfig.train_task_sampler_args st p P
      (some ds) none det = .ok a ∧ a.2.1 = st ∧
    ObjectManipThorPPOExperimentConfig.train_task_sampler_args a.2.1 p P
      (some ds) none det = .ok a) ∧
  (∃ a, ObjectManipThorPPOExperimentConfig.valid_task_sampler_args st p P
      (some ds) none det = .ok a ∧ a.2.1 = st ∧
    ObjectManipThorPPOExperimentConfig.valid_task_sampler_args a.2.1 p P
      (some ds) none det = .ok a) ∧
  (∃ a, ObjectManipThorPPOExperimentConfig.test_task_sampler_args st p P
      (some ds) none det = .ok a ∧ a.2.1 = st ∧
    ObjectManipThorPPOExperimentConfig.test_task_sampler_args a.2.1 p P
      (some ds) none det = .ok a) ∧
  (∃ a, ObjectNavThorPPOExperimentConfig.train_task_sampler_args st p P
      (some ds) none det = .ok a ∧
    a.2.1.ENV_ARGS = dictUpdate st.ENV_ARGS "x_display" (a2cXDisplay ds) ∧
    (∀ k, k ≠ "x_display" → dictGet a.2.1.ENV_ARGS k = dictGet st.ENV_ARGS k) ∧
    ObjectNavThorPPOExperimentConfig.train_task_sampler_args a.2.1 p P
      (some ds) none det = .ok a) ∧
  (∃ a, ObjectNavThorPPOExperimentConfig.valid_task_sampler_args st p P
      (some ds) none det = .ok a ∧
    a.2.1.ENV_ARGS = dictUpdate st.ENV_ARGS "x_display" (a2cXDisplay ds) ∧
    (∀ k, k ≠ "x_display" → dictGet a.2.1.ENV_ARGS k = dictGet st.ENV_ARGS k) ∧
    ObjectNavThorPPOExperimentConfig.valid_task_sampler_args a.2.1 p P
      (some ds) none det = .ok a) ∧
  (∃ a, ObjectNavThorPPOExperimentConfig.test_task_sampler_args st p P
      (some ds) none det = .ok a ∧
    a.2.1.ENV_ARGS = dictUpdate st.ENV_ARGS "x_display" (a2cXDisplay ds) ∧
    (∀ k, k ≠ "x_display" → dictGet a.2.1.ENV_ARGS k = dictGet st.ENV_ARGS k) ∧
    ObjectNavThorPPOExperimentConfig.test_task_sampler_args a.2.1 p P
      (some ds) none det = .ok a)

/-- C6 counterexample: in the A2C file, `train_task_sampler_args` adds an
`x_display` entry to the class-level `ENV_ARGS` dict (through the aliased
`res["env_args"]`), so the shared template does not hold the same entries
after the call. -/
theorem a2c_env_args_mutation_counterexample :
    (ObjectNavThorPPOExperimentConfig.train_task_sampler_args
        ObjectNavThorPPOExperimentConfig.defaultState 0 1 (some [0]) none
        false).toOption.map (fun a => a.2.1.ENV_ARGS) =
      some (dictUpdate ObjectNavThorPPOExperimentConfig.ENV_ARGS "x_display"
        (.str "0.0")) ∧
    dictUpdate ObjectNavThorPPOExperimentConfig.ENV_ARGS "x_display"
        (.str "0.0") ≠
      ObjectNavThorPPOExperimentConfig.ENV_ARGS :=
  ⟨rfl, by decide⟩

/-- C6 amended: the PPO assemblers are pure in the class state; the A2C
assemblers mutate exactly the `x_display` entry of the shared `ENV_ARGS`
template (all other entries unchanged); and in both files, for every mode, a
second call with the same inputs from the post-call state returns the
identical result. -/
theorem env_args_effects (st : ClassState) (p P : ℕ) (ds : List ℤ)
    (det : Bool) (h1 : st.TRAIN_SCENES ≠ []) (h2 : st.VALID_SCENES ≠ [])
    (h3 : st.TEST_SCENES ≠ []) (hp : p < P) :
    envArgsEffectsSpec st p P ds det := by
  refine ⟨⟨_, ppoTrain_ok st p P ds det h1 hp, rfl,
      ppoTrain_ok st p P ds det h1 hp⟩,
    ⟨_, ppoValid_ok st p P ds det h2 hp, rfl,
      ppoValid_ok st p P ds det h2 hp⟩,
    ⟨_, ppoTest_ok st p P ds det h3 hp, rfl,
      ppoTest_ok st p P ds det h3 hp⟩,
    ⟨_, a2cTrain_ok st p P ds det h1 hp, rfl, ?_, ?_⟩,
    ⟨_, a2cValid_ok st p P ds det h2 hp, rfl, ?_, ?_⟩,
    ⟨_, a2cTest_ok st p P ds det h3 hp, rfl, ?_, ?_⟩⟩
  · intro k hk
    exact dictGet_dictUpdate_ne st.ENV_ARGS "x_display" k (a2cXDisplay ds) hk
  · have h := a2cTrain_ok
      { st with ENV_ARGS := dictUpdate st.ENV_ARGS "x_display" (a2cXDisplay ds) }
      p P ds det h1 hp
    rw [dictUpdate_dictUpdate] at h
    exact h
  · intro k hk
    exact dictGet_dictUpdate_ne st.ENV_ARGS "x_display" k (a2cXDisplay ds) hk
  · have h := a2cValid_ok
      { st with ENV_ARGS := dictUpdate st.ENV_ARGS "x_display" (a2cXDisplay ds) }
      p P ds det h2 hp
    rw [dictUpdate_dictUpdate] at h
    exact h
  · intro k hk
    exact dictGet_dictUpdate_ne st.ENV_ARGS "x_display" k (a2cXDisplay ds) hk
  · have h := a2cTest_ok
      { st with ENV_ARGS := dictUpdate st.ENV_ARGS "x_display" (a2cXDisplay ds) }
      p P ds det h3 hp
    rw [dictUpdate_dictUpdate] at h
    exact h

/-- Witness for the amended C6. -/
theorem env_args_effects_witness :
    envArgsEffectsSpec ObjectManipThorPPOExperimentConfig.defaultState 0 1 [0]
      false :=
  env_args_effects ObjectManipThorPPOExperimentConfig.defaultState 0 1 [0]
    false (by decide) (by decide) (by decide) (by decide)

/-! ### Frame helpers: any successful wrapper call preserves the scene lists -/

/-- The scene-list fields of the class state are unchanged. -/
def framePreservesScenes (st s : ClassState) : Prop :=
  s.TRAIN_SCENES = st.TRAIN_SCENES ∧ s.VALID_SCENES = st.VALID_SCENES ∧
  s.TEST_SCENES = st.TEST_SCENES

lemma ppoTrain_frame (st : ClassState) (p P : ℕ) (dev seeds : Option (List ℤ))
    (det : Bool) (a : TaskArgs) (s : ClassState) (w : List SamplingWarning)
    (h : ObjectManipThorPPOExperimentConfig.train_task_sampler_args st p P dev
        seeds det = .ok (a, s, w)) :
    framePreservesScenes st s := by
  unfold ObjectManipThorPPOExperimentConfig.train_task_sampler_args at h
  cases hsplit : _get_sampler_args_for_scene_split
      ObjectManipThorPPOExperimentConfig.OBJECT_TYPES st.ENV_ARGS
      ObjectManipThorPPOExperimentConfig.MAX_STEPS st.TRAIN_SCENES p P seeds
      det with
  | error e => rw [hsplit] at h; simp at h
  | ok v =>
    obtain ⟨r, ws⟩ := v
    rw [hsplit] at h
    cases dev with
    | none => simp at h
    | some ds =>
      simp only [Except.ok.injEq, Prod.mk.injEq] at h
      rw [← h.2.1]
      exact ⟨rfl, rfl, rfl⟩

lemma ppoValid_frame (st : ClassState) (p P : ℕ) (dev seeds : Option (List ℤ))
    (det : Bool) (a : TaskArgs) (s : ClassState) (w : List SamplingWarning)
    (h : ObjectManipThorPPOExperimentConfig.valid_task_sampler_args st p P dev
        seeds det = .ok (a, s, w)) :
    framePreservesScenes st s := by
  unfold ObjectManipThorPPOExperimentConfig.valid_task_sampler_args at h
  cases hsplit : _get_sampler_args_for_scene_split
      ObjectManipThorPPOExperimentConfig.OBJECT_TYPES st.ENV_ARGS
      ObjectManipThorPPOExperimentConfig.MAX_STEPS st.VALID_SCENES p P seeds
      det with
  | error e => rw [hsplit] at h; simp at h
  | ok v =>
    obtain ⟨r, ws⟩ := v
    rw [hsplit] at h
    cases dev with
    | none => simp at h
    | some ds =>
      simp only [Except.ok.injEq, Prod.mk.injEq] at h
      rw [← h.2.1]
      exact ⟨rfl, rfl, rfl⟩

lemma ppoTest_frame (st : ClassState) (p P : ℕ) (dev seeds : Option (List ℤ))
    (det : Bool) (a : TaskArgs) (s : ClassState) (w : List SamplingWarning)
    (h : ObjectManipThorPPOExperimentConfig.test_task_sampler_args st p P dev
        seeds det = .ok (a, s, w)) :
    framePreservesScenes st s := by
  unfold ObjectManipThorPPOExperimentConfig.test_task_sampler_args at h
  cases hsplit : _get_sampler_args_for_scene_split
      ObjectManipThorPPOExperimentConfig.OBJECT_TYPES st.ENV_ARGS
      ObjectManipThorPPOExperimentConfig.MAX_STEPS st.TEST_SCENES p P seeds
      det with
  | error e => rw [hsplit] at h; simp at h
  | ok v =>
    obtain ⟨r, ws⟩ := v
    rw [hsplit] at h
    cases dev with
    | none => simp at h
    | some ds =>
      simp only [Except.ok.injEq, Prod.mk.injEq] at h
      rw [← h.2.1]
      exact ⟨rfl, rfl, rfl⟩

lemma a2cTrain_frame (st : ClassState) (p P : ℕ) (dev seeds : Option (List ℤ))
    (det : Bool) (a : TaskArgs) (s : ClassState) (w : List SamplingWarning)
    (h : ObjectNavThorPPOExperimentConfig.train_task_sampler_args st p P dev
        seeds det = .ok (a, s, w)) :
    framePreservesScenes st s := by
  unfold ObjectNavThorPPOExperimentConfig.train_task_sampler_args at h
  cases hsplit : _get_sampler_args_for_scene_split
      ObjectNavThorPPOExperimentConfig.OBJECT_TYPES st.ENV_ARGS
      ObjectNavThorPPOExperimentConfig.MAX_STEPS st.TRAIN_SCENES p P seeds
      det with
  | error e => rw [hsplit] at h; simp at h
  | ok v =>
    obtain ⟨r, ws⟩ := v
    rw [hsplit] at h
    cases dev with
    | none => simp at h
    | some ds =>
      simp only [Except.ok.injEq, Prod.mk.injEq] at h
      rw [← h.2.1]
      exact ⟨rfl, rfl, rfl⟩

lemma a2cValid_frame (st : ClassState) (p P : ℕ) (dev seeds : Option (List ℤ))
    (det : Bool) (a : TaskArgs) (s : ClassState) (w : List SamplingWarning)
    (h : ObjectNavThorPPOExperimentConfig.valid_task_sampler_args st p P dev
        seeds det = .ok (a, s, w)) :
    framePreservesScenes st s := by
  unfold ObjectNavThorPPOExperimentConfig.valid_task_sampler_args at h
  cases hsplit : _get_sampler_args_for_scene_split
      ObjectNavThorPPOExperimentConfig.OBJECT_TYPES st.ENV_ARGS
      ObjectNavThorPPOExperimentConfig.MAX_STEPS st.VALID_SCENES p P seeds
      det with
  | error e => rw [hsplit] at h; simp at h
  | ok v =>
    obtain ⟨r, ws⟩ := v
    rw [hsplit] at h
    cases dev with
    | none => simp at h
    | some ds =>
      simp only [Except.ok.injEq, Prod.mk.injEq] at h
      rw [← h.2.1]
      exact ⟨rfl, rfl, rfl⟩

lemma a2cTest_frame (st : ClassState) (p P : ℕ) (dev seeds : Option (List ℤ))
    (det : Bool) (a : TaskArgs) (s : ClassState) (w : List SamplingWarning)
    (h : ObjectNavThorPPOExperimentConfig.test_task_sampler_args st p P dev
        seeds det = .ok (a, s, w)) :
    framePreservesScenes st s := by
  unfold ObjectNavThorPPOExperimentConfig.test_task_sampler_args at h
  cases hsplit : _get_sampler_args_for_scene_split
      ObjectNavThorPPOExperimentConfig.OBJECT_TYPES st.ENV_ARGS
      ObjectNavThorPPOExperimentConfig.MAX_STEPS st.TEST_SCENES p P seeds
      det with
  | error e => rw [hsplit] at h; simp at h
  | ok v =>
    obtain ⟨r, ws⟩ := v
    rw [hsplit] at h
    cases dev with
    | none => simp at h
    | some ds =>
      simp only [Except.ok.injEq, Prod.mk.injEq] at h
      rw [← h.2.1]
      exact ⟨rfl, rfl, rfl⟩

/-- For every one of the six sampler-argument methods: with `devices = None`
every call fails with some runtime error, and an otherwise valid call fails
with precisely TypeError (raised by the unconditional `len(devices)`). -/
def devicesNoneSpec (st : ClassState) (p P : ℕ) (det : Bool) : Prop :=
  (∀ (st2 : ClassState) (p2 P2 : ℕ) (seeds2 : Option (List ℤ)) (det2 : Bool),
    ∃ e, ObjectManipThorPPOExperimentConfig.train_task_sampler_args st2 p2 P2
      none seeds2 det2 = .error e) ∧
  (∀ (st2 : ClassState) (p2 P2 : ℕ) (seeds2 : Option (List ℤ)) (det2 : Bool),
    ∃ e, ObjectManipThorPPOExperimentConfig.valid_task_sampler_args st2 p2 P2
      none seeds2 det2 = .error e) ∧
  (∀ (st2 : ClassState) (p2 P2 : ℕ) (seeds2 : Option (List ℤ)) (det2 : Bool),
    ∃ e, ObjectManipThorPPOExperimentConfig.test_task_sampler_args st2 p2 P2
      none seeds2 det2 = .error e) ∧
  (∀ (st2 : ClassState) (p2 P2 : ℕ) (seeds2 : Option (List ℤ)) (det2 : Bool),
    ∃ e, ObjectNavThorPPOExperimentConfig.train_task_sampler_args st2 p2 P2
      none seeds2 det2 = .error e) ∧
  (∀ (st2 : ClassState) (p2 P2 : ℕ) (seeds2 : Option (List ℤ)) (det2 : Bool),
    ∃ e, ObjectNavThorPPOExperimentConfig.valid_task_sampler_args st2 p2 P2
      none seeds2 det2 = .error e) ∧
  (∀ (st2 : ClassState) (p2 P2 : ℕ) (seeds2 : Option (List ℤ)) (det2 : Bool),
    ∃ e, ObjectNavThorPPOExperimentConfig.test_task_sampler_args st2 p2 P2
      none seeds2 det2 = .error e) ∧
  ObjectManipThorPPOExperimentConfig.train_task_sampler_args st p P none none
    det = .error .typeError ∧
  ObjectManipThorPPOExperimentConfig.valid_task_sampler_args st p P none none
    det = .error .typeError ∧
  ObjectManipThorPPOExperimentConfig.test_task_sampler_args st p P none none
    det = .error .typeError ∧
  ObjectNavThorPPOExperimentConfig.train_task_sampler_args st p P none none
    det = .error .typeError ∧
  ObjectNavThorPPOExperimentConfig.valid_task_sampler_args st p P none none
    det = .error .typeError ∧
  ObjectNavThorPPOExperimentConfig.test_task_sampler_args st p P none none
    det = .error .typeError

/-- C8: with `devices = None` — the declared default — every call to any of
the six `train/valid/test_task_sampler_args` methods of either file fails with
a runtime error: the split either fails first or the unconditional
`len(devices)` raises TypeError; on an otherwise valid call the error is
precisely TypeError, so a non-None devices list is a de-facto precondition. -/
theorem devices_none_always_errors (st : ClassState) (p P : ℕ) (det : Bool)
    (h1 : st.TRAIN_SCENES ≠ []) (h2 : st.VALID_SCENES ≠ [])
    (h3 : st.TEST_SCENES ≠ []) (hp : p < P) :
    devicesNoneSpec st p P det := by
  refine ⟨?_, ?_, ?_, ?_, ?_, ?_, ?_, ?_, ?_, ?_, ?_, ?_⟩
  · intro st2 p2 P2 seeds2 det2
    cases hsplit : _get_sampler_args_for_scene_split
        ObjectManipThorPPOExperimentConfig.OBJECT_TYPES st2.ENV_ARGS
        ObjectManipThorPPOExperimentConfig.MAX_STEPS st2.TRAIN_SCENES p2 P2
        seeds2 det2 with
    | error e =>
      exact ⟨e, by
        unfold ObjectManipThorPPOExperimentConfig.train_task_sampler_args
        rw [hsplit]⟩
    | ok v =>
      obtain ⟨r, ws⟩ := v
      exact ⟨.typeError, by
        unfold ObjectManipThorPPOExperimentConfig.train_task_sampler_args
        rw [hsplit]⟩
  · intro st2 p2 P2 seeds2 det2
    cases hsplit : _get_sampler_args_for_scene_split
        ObjectManipThorPPOExperimentConfig.OBJECT_TYPES st2.ENV_ARGS
        ObjectManipThorPPOExperimentConfig.MAX_STEPS st2.VALID_SCENES p2 P2
        seeds2 det2 with
    | error e =>
      exact ⟨e, by
        unfold ObjectManipThorPPOExperimentConfig.valid_task_sampler_args
        rw [hsplit]⟩
    | ok v =>
      obtain ⟨r, ws⟩ := v
      exact ⟨.typeError, by
        unfold ObjectManipThorPPOExperimentConfig.valid_task_sampler_args
        rw [hsplit]⟩
  · intro st2 p2 P2 seeds2 det2
    cases hsplit : _get_sampler_args_for_scene_split
        ObjectManipThorPPOExperimentConfig.OBJECT_TYPES st2.ENV_ARGS
        ObjectManipThorPPOExperimentConfig.MAX_STEPS st2.TEST_SCENES p2 P2
        seeds2 det2 with
    | error e =>
      exact ⟨e, by
        unfold ObjectManipThorPPOExperimentConfig.test_task_sampler_args
        rw [hsplit]⟩
    | ok v =>
      obtain ⟨r, ws⟩ := v
      exact ⟨.typeError, by
        unfold ObjectManipThorPPOExperimentConfig.test_task_sampler_args
        rw [hsplit]⟩
  · intro st2 p2 P2 seeds2 det2
    cases hsplit : _get_sampler_args_for_scene_split
        ObjectNavThorPPOExperimentConfig.OBJECT_TYPES st2.ENV_ARGS
        ObjectNavThorPPOExperimentConfig.MAX_STEPS st2.TRAIN_SCENES p2 P2
        seeds2 det2 with
    | error e =>
      exact ⟨e, by
        unfold ObjectNavThorPPOExperimentConfig.train_task_sampler_args
        rw [hsplit]⟩
    | ok v =>
      obtain ⟨r, ws⟩ := v
      exact ⟨.typeError, by
        unfold ObjectNavThorPPOExperimentConfig.train_task_sampler_args
        rw [hsplit]⟩
  · intro st2 p2 P2 seeds2 det2
    cases hsplit : _get_sampler_args_for_scene_split
        ObjectNavThorPPOExperimentConfig.OBJECT_TYPES st2.ENV_ARGS
        ObjectNavThorPPOExperimentConfig.MAX_STEPS st2.VALID_SCENES p2 P2
        seeds2 det2 with
    | error e =>
      exact ⟨e, by
        unfold ObjectNavThorPPOExperimentConfig.valid_task_sampler_args
        rw [hsplit]⟩
    | ok v =>
      obtain ⟨r, ws⟩ := v
      exact ⟨.typeError, by
        unfold ObjectNavThorPPOExperimentConfig.valid_task_sampler_args
        rw [hsplit]⟩
  · intro st2 p2 P2 seeds2 det2
    cases hsplit : _get_sampler_args_for_scene_split
        ObjectNavThorPPOExperimentConfig.OBJECT_TYPES st2.ENV_ARGS
        ObjectNavThorPPOExperimentConfig.MAX_STEPS st2.TEST_SCENES p2 P2
        seeds2 det2 with
    | error e =>
      exact ⟨e, by
        unfold ObjectNavThorPPOExperimentConfig.test_task_sampler_args
        rw [hsplit]⟩
    | ok v =>
      obtain ⟨r, ws⟩ := v
      exact ⟨.typeError, by
        unfold ObjectNavThorPPOExperimentConfig.test_task_sampler_args
        rw [hsplit]⟩
  · unfold ObjectManipThorPPOExperimentConfig.train_task_sampler_args
    rw [split_ok_none _ _ _ _ _ _ _ h1 hp]
  · unfold ObjectManipThorPPOExperimentConfig.valid_task_sampler_args
    rw [split_ok_none _ _ _ _ _ _ _ h2 hp]
  · unfold ObjectManipThorPPOExperimentConfig.test_task_sampler_args
    rw [split_ok_none _ _ _ _ _ _ _ h3 hp]
  · unfold ObjectNavThorPPOExperimentConfig.train_task_sampler_args
    rw [split_ok_none _ _ _ _ _ _ _ h1 hp]
  · unfold ObjectNavThorPPOExperimentConfig.valid_task_sampler_args
    rw [split_ok_none _ _ _ _ _ _ _ h2 hp]
  · unfold ObjectNavThorPPOExperimentConfig.test_task_sampler_args
    rw [split_ok_none _ _ _ _ _ _ _ h3 hp]

/-- Witness for C8. -/
theorem devices_none_always_errors_witness :
    devicesNoneSpec ObjectManipThorPPOExperimentConfig.defaultState 0 1 false :=
  devices_none_always_errors ObjectManipThorPPOExperimentConfig.defaultState
    0 1 false (by decide) (by decide) (by decide) (by decide)

/-- C9: on a valid worker call with a non-None seeds list, the access
`seeds[process_ind]` succeeds exactly when `process_ind < len(seeds)` — then
the returned `seed` entry is `seeds[process_ind]` — and otherwise the
assembler fails with IndexError. -/
theorem seeds_indexing (OT : List String) (EA : EnvArgs) (MS : ℕ)
    (scenes : List String) (p P : ℕ) (l : List ℤ) (det : Bool)
    (h0 : scenes ≠ []) (hp : p < P) :
    _get_sampler_args_for_scene_split OT EA MS scenes p P (some l) det =
      if h : p < l.length then
        .ok (⟨assignedScenes scenes P p, OT, EA, MS, some (l.get ⟨p, h⟩), det⟩,
          splitWarnings scenes P)
      else .error .indexError := by
  by_cases h : p < l.length
  · rw [dif_pos h]
    exact split_ok_seed OT EA MS scenes p P l det h0 hp h
  · rw [dif_neg h]
    exact split_seed_oob OT EA MS scenes p P l det h0 hp (by omega)

/-- Witness for C9: seeds list `[11]` is too short for worker 1 of 2. -/
theorem seeds_indexing_witness :
    _get_sampler_args_for_scene_split [] [] 0 ["s0", "s1"] 1 2
        (some [11]) false =
      if h : 1 < ([11] : List ℤ).length then
        .ok (⟨assignedScenes ["s0", "s1"] 2 1, [], [], 0,
          some (([11] : List ℤ).get ⟨1, h⟩), false⟩,
          splitWarnings ["s0", "s1"] 2)
      else .error .indexError :=
  seeds_indexing [] [] 0 ["s0", "s1"] 1 2 [11] false (by decide) (by decide)

/-- C10: whatever a successful call of any of the six sampler-argument
methods returns, the scene-list fields of the class state — the caller's
TRAIN/VALID/TEST scene lists — are exactly preserved; only the replicated and
truncated local copies are new lists. -/
theorem scene_lists_unmutated (st : ClassState) (p P : ℕ)
    (dev seeds : Option (List ℤ)) (det : Bool)
    (aT aV aE bT bV bE : TaskArgs) (sT sV sE tT tV tE : ClassState)
    (wT wV wE xT xV xE : List SamplingWarning)
    (h1 : ObjectManipThorPPOExperimentConfig.train_task_sampler_args st p P dev
      seeds det = .ok (aT, sT, wT))
    (h2 : ObjectManipThorPPOExperimentConfig.valid_task_sampler_args st p P dev
      seeds det = .ok (aV, sV, wV))
    (h3 : ObjectManipThorPPOExperimentConfig.test_task_sampler_args st p P dev
      seeds det = .ok (aE, sE, wE))
    (h4 : ObjectNavThorPPOExperimentConfig.train_task_sampler_args st p P dev
      seeds det = .ok (bT, tT, xT))
    (h5 : ObjectNavThorPPOExperimentConfig.valid_task_sampler_args st p P dev
      seeds det = .ok (bV, tV, xV))
    (h6 : ObjectNavThorPPOExperimentConfig.test_task_sampler_args st p P dev
      seeds det = .ok (bE, tE, xE)) :
    framePreservesScenes st sT ∧ framePreservesScenes st sV ∧
    framePreservesScenes st sE ∧ framePreservesScenes st tT ∧
    framePreservesScenes st tV ∧ framePreservesScenes st tE :=
  ⟨ppoTrain_frame st p P dev seeds det aT sT wT h1,
   ppoValid_frame st p P dev seeds det aV sV wV h2,
   ppoTest_frame st p P dev seeds det aE sE wE h3,
   a2cTrain_frame st p P dev seeds det bT tT xT h4,
   a2cValid_frame st p P dev seeds det bV tV xV h5,
   a2cTest_frame st p P dev seeds det bE tE xE h6⟩

/-- Witness for C10 at the class defaults, one worker, no devices. -/
theorem scene_lists_unmutated_witness :
    framePreservesScenes ObjectManipThorPPOExperimentConfig.defaultState
      ObjectManipThorPPOExperimentConfig.defaultState ∧
    framePreservesScenes ObjectManipThorPPOExperimentConfig.defaultState
      ObjectManipThorPPOExperimentConfig.defaultState ∧
    framePreservesScenes ObjectManipThorPPOExperimentConfig.defaultState
      ObjectManipThorPPOExperimentConfig.defaultState ∧
    framePreservesScenes ObjectManipThorPPOExperimentConfig.defaultState
      { ObjectManipThorPPOExperimentConfig.defaultState with
        ENV_ARGS := dictUpdate
          ObjectManipThorPPOExperimentConfig.defaultState.ENV_ARGS "x_display"
          (a2cXDisplay []) } ∧
    framePreservesScenes ObjectManipThorPPOExperimentConfig.defaultState
      { ObjectManipThorPPOExperimentConfig.defaultState with
        ENV_ARGS := dictUpdate
          ObjectManipThorPPOExperimentConfig.defaultState.ENV_ARGS "x_display"
          (a2cXDisplay []) } ∧
    framePreservesScenes ObjectManipThorPPOExperimentConfig.defaultState
      { ObjectManipThorPPOExperimentConfig.defaultState with
        ENV_ARGS := dictUpdate
          ObjectManipThorPPOExperimentConfig.defaultState.ENV_ARGS "x_display"
          (a2cXDisplay []) } :=
  scene_lists_unmutated ObjectManipThorPPOExperimentConfig.defaultState 0 1
    (some []) none false _ _ _ _ _ _ _ _ _ _ _ _ _ _ _ _ _ _
    rfl rfl rfl rfl rfl rfl
